import Mathlib

/-!
Verification of the terminal hand-off core (`exec.go` of package `tea`):
stream proxies (`ReaderProxy`, `WriterProxy`), the `ExecCommand` contract
with its OS-process adapter (`OsExecCommand`), and the hand-off controller
`(*Program).exec`.

Shallow embedding conventions:
* Go `error` values are opaque; an `Option Err` with `Err := Nat` stands for
  an `error` that is `nil` (`none`) or some concrete failure (`some k`).
* Messages (`tea.Msg`, the callback's result) are opaque, modelled as `Nat`.
* Underlying `io.Reader` / `io.Writer` endpoints are ranged over by the
  first-order type `Stream`; their byte-level behaviour is supplied by an
  explicit environment `Env` (a read gets back the filled buffer, the count
  and the error, mirroring Go's in-place fill of the slice argument).
* A Go `nil` function or `nil` interface field is `none`; calling it is a
  runtime panic, modelled by the operation returning `none` (a fault).
* Side effects are made observable as an event trace (`Ev`): each call to an
  underlying stream, each observer (`Handler`) invocation, and each of the
  controller's interactions (release, proxy fetching, the three setter
  installations, run, restore, message send) appends one event.
-/

namespace Tea

/-- Opaque failure values (Go `error`); `Option Err` with `none` for `nil`. -/
abbrev Err := Nat

/-- Opaque messages (`tea.Msg`) produced by the completion callback. -/
abbrev Msg := Nat

/-- First-order identity of an underlying stream endpoint: the host's own
input, the host's own output, or any other caller-supplied endpoint. -/
inductive Stream where
  | hostInput : Stream
  | hostOutput : Stream
  | other : Nat → Stream
deriving DecidableEq

/-- Result of a source read: Go's `Read(b)` fills `b` in place and returns
`(n, err)`; here the filled buffer is returned explicitly as `buf`. -/
structure ReadRes where
  buf : List Nat
  n : Nat
  err : Option Err
deriving DecidableEq

/-- Result of a sink write: Go's `Write(b)` returns `(n, err)`. -/
structure WriteRes where
  n : Nat
  err : Option Err
deriving DecidableEq

/-- Byte-level behaviour of the underlying endpoints (external collaborators:
the host's real input/output streams and any caller-supplied streams). -/
structure Env where
  readFn : Stream → List Nat → ReadRes
  writeFn : Stream → List Nat → WriteRes

/-- The `ReaderProxy` struct: `From` is the wrapped `io.Reader` (a `nil`
interface field is `none`), `Handler` the observer callback (`nil` is
`none`; a present observer is identified opaquely by a `Nat`, since only
the fact and arguments of its invocation are observable). The source also
embeds an anonymous unused `io.Reader` field, omitted here. -/
structure ReaderProxy where
  From : Option Stream
  Handler : Option Nat
deriving DecidableEq

/-- The `WriterProxy` struct, the writer counterpart of `ReaderProxy`. -/
structure WriterProxy where
  From : Option Stream
  Handler : Option Nat
deriving DecidableEq

/-- Concrete `io.Reader` values that occur in this core: a bare endpoint or a reader
proxy (the controller installs proxies via `SetStdin`). -/
inductive Rd where
  | base : Stream → Rd
  | proxy : ReaderProxy → Rd
deriving DecidableEq

/-- Concrete `io.Writer` values that occur in this core: a bare endpoint or a writer
proxy (the controller installs proxies via `SetStdout` / `SetStderr`). -/
inductive Wr where
  | base : Stream → Wr
  | proxy : WriterProxy → Wr
deriving DecidableEq

/-- Observable events, in program order. `read`/`write` record a call to an
underlying endpoint, `handler` an observer invocation with its exact
arguments, and the rest record the controller's steps. -/
inductive Ev where
  | release : Option Err → Ev
  | getProxies : ReaderProxy × WriterProxy × WriterProxy → Ev
  | setStdin : Rd → Ev
  | setStdout : Wr → Ev
  | setStderr : Wr → Ev
  | run : Option Err → Ev
  | restore : Option Err → Ev
  | send : Msg → Ev
  | read : Stream → List Nat → List Nat → Nat → Option Err → Ev
  | handler : Nat → List Nat → Nat → Option Err → Ev
  | write : Stream → List Nat → Nat → Option Err → Ev
deriving DecidableEq

/-- Method `func (s ReaderProxy) Read(b []byte) (n int, err error)`:
`n, err = s.From.Read(b); s.Handler(b, n, err); return n, err`.
The slice `b` is filled in place by the source, so the observer sees the
filled buffer. A `nil` `From` or `nil` `Handler` makes the corresponding
call panic, modelled as `none`. On success: the source's result together
with the trace (source read first, then the observer invocation). -/
def ReaderProxy.Read (env : Env) (s : ReaderProxy) (b : List Nat) :
    Option (ReadRes × List Ev) :=
  match s.From with
  | none => none
  | some src =>
    let r := env.readFn src b
    match s.Handler with
    | none => none
    | some h =>
      some (r, [Ev.read src b r.buf r.n r.err, Ev.handler h r.buf r.n r.err])

/-- Method `func (s WriterProxy) Write(b []byte) (n int, err error)`:
`s.Handler(b, n, err); n, err = s.From.Write(b); return n, err`.
The named results `n, err` still hold Go's zero values (`0`, `nil`) when
the observer is invoked, so the observer receives `(b, 0, nil)` before the
write is performed. A `nil` `Handler` or `nil` `From` panics (`none`). -/
def WriterProxy.Write (env : Env) (s : WriterProxy) (b : List Nat) :
    Option (WriteRes × List Ev) :=
  match s.Handler with
  | none => none
  | some h =>
    match s.From with
    | none => none
    | some dst =>
      let r := env.writeFn dst b
      some (r, [Ev.handler h b 0 none, Ev.write dst b r.n r.err])

/-- The `(h, buffer, n, err)` of each observer invocation in a trace. -/
def handlerCalls (t : List Ev) : List (Nat × List Nat × Nat × Option Err) :=
  t.filterMap fun e =>
    match e with
    | Ev.handler h b n er => some (h, b, n, er)
    | _ => none

/-- Fields of `*exec.Cmd` this core touches: the three stream slots (a Go
`nil` field is `none`). `runResult` — modelled from the spec: the outcome
of the platform process-execution facility (`exec.Cmd.Run`, external to
this core), which "fails or succeeds" opaquely. -/
structure ExecCmd where
  Stdin : Option Rd
  Stdout : Option Wr
  Stderr : Option Wr
  runResult : Option Err
deriving DecidableEq

/-- Struct `OsExecCommand`: a layer over an `exec.Cmd` carrying the three proxies
the command wants installed. -/
structure OsExecCommand where
  Cmd : ExecCmd
  StdinProxy : ReaderProxy
  StdoutProxy : WriterProxy
  StderrProxy : WriterProxy
deriving DecidableEq

/-- Method `func (c *OsExecCommand) GetProxies()`: returns the stored proxies. -/
def OsExecCommand.GetProxies (c : OsExecCommand) :
    ReaderProxy × WriterProxy × WriterProxy :=
  (c.StdinProxy, c.StdoutProxy, c.StderrProxy)

/-- Method `func (c *OsExecCommand) SetStdin(r io.Reader)`:
`if c.Stdin == nil { c.Stdin = r }`. -/
def OsExecCommand.SetStdin (c : OsExecCommand) (r : Rd) : OsExecCommand :=
  if c.Cmd.Stdin = none then { c with Cmd := { c.Cmd with Stdin := some r } }
  else c

/-- Method `func (c *OsExecCommand) SetStdout(w io.Writer)`:
`if c.Stdout == nil { c.Stdout = w }`. -/
def OsExecCommand.SetStdout (c : OsExecCommand) (w : Wr) : OsExecCommand :=
  if c.Cmd.Stdout = none then { c with Cmd := { c.Cmd with Stdout := some w } }
  else c

/-- Method `func (c *OsExecCommand) SetStderr(w io.Writer)`:
`if c.Stderr == nil { c.Stderr = w }`. -/
def OsExecCommand.SetStderr (c : OsExecCommand) (w : Wr) : OsExecCommand :=
  if c.Cmd.Stderr = none then { c with Cmd := { c.Cmd with Stderr := some w } }
  else c

/-- Method `func (c *OsExecCommand) Run() error` delegates to the wrapped
`exec.Cmd`'s run, whose outcome is the externally-determined `runResult`. -/
def OsExecCommand.Run (c : OsExecCommand) : Option Err :=
  c.Cmd.runResult

/-- The `ExecCommand` interface, as a record of methods over a command
state `σ` (the controller only ever calls these five methods). Setters and
`Run` are state-passing translations of the Go methods' mutation. -/
structure ExecCommand (σ : Type) where
  Run : σ → Option Err
  SetStdin : σ → Rd → σ
  SetStdout : σ → Wr → σ
  SetStderr : σ → Wr → σ
  GetProxies : σ → ReaderProxy × WriterProxy × WriterProxy

/-- The `OsExecCommand` implementation of the `ExecCommand` interface. -/
def osExecCommand : ExecCommand OsExecCommand where
  Run := OsExecCommand.Run
  SetStdin := OsExecCommand.SetStdin
  SetStdout := OsExecCommand.SetStdout
  SetStderr := OsExecCommand.SetStderr
  GetProxies := OsExecCommand.GetProxies

/-- The controller state of `*Program` that `exec` depends on. Modelled from
the spec: `ReleaseTerminal` and `RestoreTerminal` are the host's paired
terminal operations, each of which externally "fails or succeeds"
(`releaseErr` / `restoreErr` are their outcomes, `none` on success), and
`input` / `output` are the host's own raw streams. -/
structure Program where
  releaseErr : Option Err
  restoreErr : Option Err
  input : Stream
  output : Stream

/-- Statement `if fn != nil { go p.Send(fn(err)) }`: the message-send events this
dispatch produces — one `send` of the callback's message when a callback is
present, nothing otherwise. -/
def sendEvs (fn : Option (Option Err → Msg)) (e : Option Err) : List Ev :=
  match fn with
  | some f => [Ev.send (f e)]
  | none => []

/-- The stream-wiring prefix of `exec`: fetch the command's proxies, bind
the reader proxy's `From` to the host input and both writer proxies' `From`
to the host output (on local copies — the proxies are value types), and
install them via the command's three setters; returns the command state the
subsequent `c.Run()` is invoked on. -/
def Program.wire {σ : Type} (p : Program) (C : ExecCommand σ) (c : σ) : σ :=
  let ps := C.GetProxies c
  let stdinProxy : ReaderProxy := { ps.1 with From := some p.input }
  let stdoutProxy : WriterProxy := { ps.2.1 with From := some p.output }
  let stderrProxy : WriterProxy := { ps.2.2 with From := some p.output }
  let c1 := C.SetStdin c (Rd.proxy stdinProxy)
  let c2 := C.SetStdout c1 (Wr.proxy stdoutProxy)
  C.SetStderr c2 (Wr.proxy stderrProxy)

/-- Function `func (p *Program) exec(c ExecCommand, fn ExecCallback)`, as the trace
of its interactions. If `p.ReleaseTerminal()` fails, report via callback
(when present) and return. Otherwise wire the streams (`Program.wire`),
run the command; on run failure restore the terminal discarding that
outcome and report the run failure; on run success restore and report the
restore outcome. In Go `exec` returns nothing and this translation is a
total function: the controller always returns normally to its caller. -/
def Program.exec {σ : Type} (p : Program) (C : ExecCommand σ) (c : σ)
    (fn : Option (Option Err → Msg)) : List Ev :=
  match p.releaseErr with
  | some err => Ev.release (some err) :: sendEvs fn (some err)
  | none =>
    let ps := C.GetProxies c
    let stdinProxy : ReaderProxy := { ps.1 with From := some p.input }
    let stdoutProxy : WriterProxy := { ps.2.1 with From := some p.output }
    let stderrProxy : WriterProxy := { ps.2.2 with From := some p.output }
    let c1 := C.SetStdin c (Rd.proxy stdinProxy)
    let c2 := C.SetStdout c1 (Wr.proxy stdoutProxy)
    let c3 := C.SetStderr c2 (Wr.proxy stderrProxy)
    let wiringEvs : List Ev :=
      [Ev.getProxies ps, Ev.setStdin (Rd.proxy stdinProxy),
       Ev.setStdout (Wr.proxy stdoutProxy), Ev.setStderr (Wr.proxy stderrProxy)]
    match C.Run c3 with
    | some err =>
      Ev.release none :: wiringEvs ++
        [Ev.run (some err), Ev.restore p.restoreErr] ++ sendEvs fn (some err)
    | none =>
      Ev.release none :: wiringEvs ++
        [Ev.run none, Ev.restore p.restoreErr] ++ sendEvs fn p.restoreErr

/-- The messages delivered (sent into the host's event stream) in a trace. -/
def sends (t : List Ev) : List Msg :=
  t.filterMap fun e =>
    match e with
    | Ev.send m => some m
    | _ => none

/-- How many times the restore operation was invoked in a trace. -/
def restoreCount (t : List Ev) : Nat :=
  (t.filter fun e =>
    match e with
    | Ev.restore _ => true
    | _ => false).length

/-- How many times the command's `Run` was invoked in a trace. -/
def runCount (t : List Ev) : Nat :=
  (t.filter fun e =>
    match e with
    | Ev.run _ => true
    | _ => false).length

/-! Concrete instances used to exercise the definitions. -/

/-- A concrete environment: every source hands back each byte incremented
and reports the buffer length with no error; every sink reports the buffer
length written with no error. -/
def env0 : Env where
  readFn := fun _ b => { buf := b.map (fun x => x + 1), n := b.length, err := none }
  writeFn := fun _ b => { n := b.length, err := none }

/-- A concrete reader proxy with a present source and observer. -/
def pr0 : ReaderProxy := { From := some (Stream.other 0), Handler := some 7 }

/-- A concrete writer proxy with a present sink and observer. -/
def pw0 : WriterProxy := { From := some (Stream.other 1), Handler := some 9 }

/-- A concrete reader proxy whose observer is absent (`nil` `Handler`). -/
def prNil : ReaderProxy := { From := some (Stream.other 0), Handler := none }

/-- A concrete writer proxy whose observer is absent (`nil` `Handler`). -/
def pwNil : WriterProxy := { From := some (Stream.other 1), Handler := none }

/-- A concrete OS-process command: no pre-assigned streams, a run that
fails with error `7`, and three proxies with observers `1`, `2`, `3`. -/
def cmd0 : OsExecCommand where
  Cmd := { Stdin := none, Stdout := none, Stderr := none, runResult := some 7 }
  StdinProxy := { From := none, Handler := some 1 }
  StdoutProxy := { From := none, Handler := some 2 }
  StderrProxy := { From := none, Handler := some 3 }

/-- A concrete OS-process command whose run succeeds. -/
def cmdOk : OsExecCommand where
  Cmd := { Stdin := none, Stdout := none, Stderr := none, runResult := none }
  StdinProxy := { From := none, Handler := some 1 }
  StdoutProxy := { From := none, Handler := some 2 }
  StderrProxy := { From := none, Handler := some 3 }

/-- A concrete program state whose release succeeds and restore fails. -/
def p0 : Program where
  releaseErr := none
  restoreErr := some 3
  input := Stream.hostInput
  output := Stream.hostOutput

/-- A concrete program state whose release fails with error `11`. -/
def pBad : Program where
  releaseErr := some 11
  restoreErr := none
  input := Stream.hostInput
  output := Stream.hostOutput

/-- A concrete callback: the message is the failure value, `0` on success. -/
def fn0 : Option (Option Err → Msg) :=
  some (fun e =>
    match e with
    | some k => k
    | none => 0)

/-- Shared shape lemma: whenever release succeeds, `exec`'s trace is
exactly release, proxy fetch, the three setter installations of the bound
proxies, run, restore, and the callback dispatch (whose argument is the
run failure when there is one, the restore outcome otherwise). -/
theorem exec_trace_shape {σ : Type} (p : Program) (C : ExecCommand σ) (c : σ)
    (fn : Option (Option Err → Msg)) (h : p.releaseErr = none) :
    Program.exec p C c fn =
      Ev.release none ::
      Ev.getProxies (C.GetProxies c) ::
      Ev.setStdin (Rd.proxy { (C.GetProxies c).1 with From := some p.input }) ::
      Ev.setStdout (Wr.proxy { (C.GetProxies c).2.1 with From := some p.output }) ::
      Ev.setStderr (Wr.proxy { (C.GetProxies c).2.2 with From := some p.output }) ::
      Ev.run (C.Run (Program.wire p C c)) ::
      Ev.restore p.restoreErr ::
      sendEvs fn
        (match C.Run (Program.wire p C c) with
         | some e => some e
         | none => p.restoreErr) := by
  cases hr : C.Run (Program.wire p C c) <;>
    simp only [Program.exec, Program.wire, h] at hr ⊢ <;>
    rw [hr] <;> rfl

/-- C3: every `Read` on a reader proxy whose source is `S` and whose
observer is `O` first delegates to `S` (the source-read event precedes the
observer event), then invokes `O` exactly once with the exact
`(buffer, n, err)` triple `S` produced, and returns `S`'s result unchanged
(the same filled buffer, count and error). -/
theorem readerProxy_read_delegates_then_observes (env : Env) (s : ReaderProxy)
    (S : Stream) (O : Nat) (b : List Nat)
    (hF : s.From = some S) (hH : s.Handler = some O) :
    ReaderProxy.Read env s b =
      some (env.readFn S b,
        [Ev.read S b (env.readFn S b).buf (env.readFn S b).n (env.readFn S b).err,
         Ev.handler O (env.readFn S b).buf (env.readFn S b).n (env.readFn S b).err]) := by
  simp [ReaderProxy.Read, hF, hH]

/-- Witness for C3 at `env0`, `pr0`, buffer `[1, 2]`: the source answers
`([2, 3], 2, nil)` and that is exactly what the caller and observer see. -/
theorem readerProxy_read_delegates_then_observes_witness :
    pr0.From = some (Stream.other 0) ∧ pr0.Handler = some 7 ∧
    ReaderProxy.Read env0 pr0 [1, 2] =
      some ({ buf := [2, 3], n := 2, err := none },
        [Ev.read (Stream.other 0) [1, 2] [2, 3] 2 none,
         Ev.handler 7 [2, 3] 2 none]) := by
  refine ⟨rfl, rfl, ?_⟩
  exact (readerProxy_read_delegates_then_observes env0 pr0 (Stream.other 0) 7
    [1, 2] rfl rfl).trans (by decide)

/-- C4: every `Write` on a writer proxy whose sink is `W` and whose
observer is `O` invokes `O` exactly once before delegating to `W` (the
observer event precedes the sink-write event, which carries the very same
buffer), and returns `W.Write`'s own `(n, err)` result unchanged. -/
theorem writerProxy_write_observes_then_delegates (env : Env) (s : WriterProxy)
    (W : Stream) (O : Nat) (b : List Nat)
    (hF : s.From = some W) (hH : s.Handler = some O) :
    WriterProxy.Write env s b =
      some (env.writeFn W b,
        [Ev.handler O b 0 none,
         Ev.write W b (env.writeFn W b).n (env.writeFn W b).err]) := by
  simp [WriterProxy.Write, hF, hH]

/-- Witness for C4 at `env0`, `pw0`, buffer `[5, 6]`: the observer event
comes first, and the sink's result `(2, nil)` is returned unchanged. -/
theorem writerProxy_write_observes_then_delegates_witness :
    pw0.From = some (Stream.other 1) ∧ pw0.Handler = some 9 ∧
    WriterProxy.Write env0 pw0 [5, 6] =
      some ({ n := 2, err := none },
        [Ev.handler 9 [5, 6] 0 none,
         Ev.write (Stream.other 1) [5, 6] 2 none]) := by
  refine ⟨rfl, rfl, ?_⟩
  exact (writerProxy_write_observes_then_delegates env0 pw0 (Stream.other 1) 9
    [5, 6] rfl rfl).trans (by decide)

/-- C5 counterexample: writing `[5, 6, 7]` through `pw0` over a sink that
transfers `3` bytes. The single observer invocation receives `n = 0` and
`err = nil` — the Go zero values of the named results at the time
`s.Handler(b, n, err)` runs — not the write operation's transferred count
`3`; in particular no observer invocation with the operation's `(3, nil)`
occurs. So the observer does not receive the number of bytes transferred
by the write, contradicting the claim. -/
theorem writerProxy_observer_payload_cex :
    WriterProxy.Write env0 pw0 [5, 6, 7] =
      some ({ n := 3, err := none },
        [Ev.handler 9 [5, 6, 7] 0 none,
         Ev.write (Stream.other 1) [5, 6, 7] 3 none]) ∧
    handlerCalls
        [Ev.handler 9 [5, 6, 7] 0 none,
         Ev.write (Stream.other 1) [5, 6, 7] 3 none] =
      [(9, [5, 6, 7], 0, none)] ∧
    (0 : Nat) ≠ 3 := by
  exact ⟨by decide, by decide, by decide⟩

/-- C5 as amended: on every read the observer receives exactly the
operation's `(filled buffer, n, err)`; on every write the observer is
invoked before the write with the buffer and the zero values `(0, nil)`,
so it receives the buffer about to be written but not the write's
transferred count or error. -/
theorem proxy_observer_payloads (env : Env) (r : ReaderProxy) (w : WriterProxy)
    (S W : Stream) (RO WO : Nat) (b c : List Nat)
    (hrF : r.From = some S) (hrH : r.Handler = some RO)
    (hwF : w.From = some W) (hwH : w.Handler = some WO) :
    (∃ res t, ReaderProxy.Read env r b = some (res, t) ∧
      handlerCalls t =
        [(RO, (env.readFn S b).buf, (env.readFn S b).n, (env.readFn S b).err)]) ∧
    (∃ res t, WriterProxy.Write env w c = some (res, t) ∧
      handlerCalls t = [(WO, c, 0, none)]) := by
  constructor
  · refine ⟨env.readFn S b,
      [Ev.read S b (env.readFn S b).buf (env.readFn S b).n (env.readFn S b).err,
       Ev.handler RO (env.readFn S b).buf (env.readFn S b).n (env.readFn S b).err],
      ?_, ?_⟩
    · simp [ReaderProxy.Read, hrF, hrH]
    · simp [handlerCalls]
  · refine ⟨env.writeFn W c,
      [Ev.handler WO c 0 none,
       Ev.write W c (env.writeFn W c).n (env.writeFn W c).err],
      ?_, ?_⟩
    · simp [WriterProxy.Write, hwF, hwH]
    · simp [handlerCalls]

/-- Witness for the amended C5 at `env0`, `pr0`, `pw0`: the reader's
observer gets the operation's `([2], 1, nil)`, the writer's observer gets
`([4], 0, nil)` even though the sink transfers `1` byte. -/
theorem proxy_observer_payloads_witness :
    pr0.From = some (Stream.other 0) ∧ pr0.Handler = some 7 ∧
    pw0.From = some (Stream.other 1) ∧ pw0.Handler = some 9 ∧
    ((∃ res t, ReaderProxy.Read env0 pr0 [1] = some (res, t) ∧
        handlerCalls t = [(7, [2], 1, none)]) ∧
     (∃ res t, WriterProxy.Write env0 pw0 [4] = some (res, t) ∧
        handlerCalls t = [(9, [4], 0, none)])) := by
  refine ⟨rfl, rfl, rfl, rfl, ?_⟩
  have h := proxy_observer_payloads env0 pr0 pw0 (Stream.other 0)
    (Stream.other 1) 7 9 [1] [4] rfl rfl rfl rfl
  simpa [env0] using h

/-- C6 counterexample: a reader proxy and a writer proxy whose observer is
absent (`nil` `Handler`), each wrapping a present stream, fault on
`Read` / `Write` (the source's `s.Handler(b, n, err)` is a call of a `nil`
function, a runtime panic, modelled as `none`): the operation does not
complete without fault, contradicting the claim. -/
theorem proxy_nil_handler_cex :
    ReaderProxy.Read env0 prNil [1] = none ∧
    WriterProxy.Write env0 pwNil [1] = none := by
  exact ⟨rfl, rfl⟩

/-- C6 as amended: for every proxy whose observer is absent (`nil`
`Handler`), `Read` / `Write` faults on every buffer — the proxies require
a present (possibly no-op) handler to be safely callable; no default no-op
is supplied. -/
theorem proxy_nil_handler_faults (env : Env) (r : ReaderProxy) (w : WriterProxy)
    (b c : List Nat) (hr : r.Handler = none) (hw : w.Handler = none) :
    ReaderProxy.Read env r b = none ∧ WriterProxy.Write env w c = none := by
  constructor
  · cases hF : r.From <;> simp [ReaderProxy.Read, hF, hr]
  · simp [WriterProxy.Write, hw]

/-- Witness for the amended C6 at `env0`, `prNil`, `pwNil`. -/
theorem proxy_nil_handler_faults_witness :
    prNil.Handler = none ∧ pwNil.Handler = none ∧
    (ReaderProxy.Read env0 prNil [2] = none ∧
     WriterProxy.Write env0 pwNil [3] = none) := by
  exact ⟨rfl, rfl, proxy_nil_handler_faults env0 prNil pwNil [2] [3] rfl rfl⟩

/-- C7: each of the three setters of the OS-process command assigns the
given stream only when the corresponding `exec.Cmd` field is `nil`, and
leaves an already non-`nil` field's stream reference unchanged. -/
theorem osExecCommand_setters_fill_only_unset (c : OsExecCommand)
    (r : Rd) (w v : Wr) :
    (OsExecCommand.SetStdin c r).Cmd.Stdin =
      (if c.Cmd.Stdin = none then some r else c.Cmd.Stdin) ∧
    (OsExecCommand.SetStdout c w).Cmd.Stdout =
      (if c.Cmd.Stdout = none then some w else c.Cmd.Stdout) ∧
    (OsExecCommand.SetStderr c v).Cmd.Stderr =
      (if c.Cmd.Stderr = none then some v else c.Cmd.Stderr) := by
  refine ⟨?_, ?_, ?_⟩ <;>
    simp only [OsExecCommand.SetStdin, OsExecCommand.SetStdout,
      OsExecCommand.SetStderr] <;>
    split <;> simp

/-- C1: in every execution whose terminal release succeeds, the controller
invokes exactly one restore operation, and the delivered message is the
callback applied to the run failure when `Run` failed (whatever the restore
outcome `p.restoreErr` was), and to the restore outcome when `Run`
succeeded; with no callback, nothing is delivered. -/
theorem exec_restore_once_and_callback {σ : Type} (p : Program)
    (C : ExecCommand σ) (c : σ) (fn : Option (Option Err → Msg))
    (h : p.releaseErr = none) :
    restoreCount (Program.exec p C c fn) = 1 ∧
    sends (Program.exec p C c fn) =
      (match fn, C.Run (Program.wire p C c) with
       | none, _ => []
       | some f, some e => [f (some e)]
       | some f, none => [f p.restoreErr]) := by
  rw [exec_trace_shape p C c fn h]
  constructor
  · cases fn <;> cases C.Run (Program.wire p C c) <;>
      simp [restoreCount, sendEvs, List.filter]
  · cases fn <;> cases C.Run (Program.wire p C c) <;>
      simp [sends, sendEvs, List.filterMap]

/-- Witness for C1: release succeeds, restore fails with `3`, the run fails
with `7` — exactly one restore happens and the callback receives the run
failure `7`, not the restore outcome. -/
theorem exec_restore_once_and_callback_witness :
    p0.releaseErr = none ∧ p0.restoreErr = some 3 ∧
    restoreCount (Program.exec p0 osExecCommand cmd0 fn0) = 1 ∧
    sends (Program.exec p0 osExecCommand cmd0 fn0) = [7] := by
  refine ⟨rfl, rfl, ?_, ?_⟩
  · exact (exec_restore_once_and_callback p0 osExecCommand cmd0 fn0 rfl).1
  · exact (exec_restore_once_and_callback p0 osExecCommand cmd0 fn0 rfl).2.trans
      (by decide)

/-- C2: in every execution whose terminal release fails with `r`, the
command's `Run` is never invoked, the restore operation is never invoked,
and the callback (when present) receives exactly `r`. -/
theorem exec_release_fail_aborts {σ : Type} (p : Program)
    (C : ExecCommand σ) (c : σ) (fn : Option (Option Err → Msg))
    (r : Err) (h : p.releaseErr = some r) :
    runCount (Program.exec p C c fn) = 0 ∧
    restoreCount (Program.exec p C c fn) = 0 ∧
    sends (Program.exec p C c fn) =
      (match fn with
       | some f => [f (some r)]
       | none => []) := by
  cases fn <;>
    simp [Program.exec, h, sendEvs, runCount, restoreCount, sends,
      List.filter, List.filterMap]

/-- Witness for C2: release fails with `11` — no run, no restore, and the
callback receives `11`. -/
theorem exec_release_fail_aborts_witness :
    pBad.releaseErr = some 11 ∧
    runCount (Program.exec pBad osExecCommand cmd0 fn0) = 0 ∧
    restoreCount (Program.exec pBad osExecCommand cmd0 fn0) = 0 ∧
    sends (Program.exec pBad osExecCommand cmd0 fn0) = [11] := by
  have h := exec_release_fail_aborts pBad osExecCommand cmd0 fn0 11 rfl
  exact ⟨rfl, h.1, h.2.1, h.2.2.trans (by decide)⟩

/-- C8: in every execution whose release succeeds, the controller fetches
the command's three proxies via `GetProxies`, binds the reader proxy's
`From` to the host's input stream and both writer proxies' `From` to the
same host output stream, and installs the bound proxies onto the command
via its three setters — all before invoking `Run` (the run event follows
the fetch and setter events in the trace). -/
theorem exec_wires_proxies_before_run {σ : Type} (p : Program)
    (C : ExecCommand σ) (c : σ) (fn : Option (Option Err → Msg))
    (h : p.releaseErr = none) :
    ∃ rest, Program.exec p C c fn =
      Ev.release none ::
      Ev.getProxies (C.GetProxies c) ::
      Ev.setStdin (Rd.proxy { (C.GetProxies c).1 with From := some p.input }) ::
      Ev.setStdout (Wr.proxy { (C.GetProxies c).2.1 with From := some p.output }) ::
      Ev.setStderr (Wr.proxy { (C.GetProxies c).2.2 with From := some p.output }) ::
      Ev.run (C.Run (Program.wire p C c)) :: rest :=
  ⟨Ev.restore p.restoreErr ::
    sendEvs fn
      (match C.Run (Program.wire p C c) with
       | some e => some e
       | none => p.restoreErr),
   exec_trace_shape p C c fn h⟩

/-- Witness for C8 at `p0`, `cmd0`: the first six trace events are the
successful release, the proxy fetch, and the three setter installations of
the proxies bound to the host streams, followed by the run. -/
theorem exec_wires_proxies_before_run_witness :
    p0.releaseErr = none ∧
    (Program.exec p0 osExecCommand cmd0 fn0).take 6 =
      [Ev.release none,
       Ev.getProxies (cmd0.StdinProxy, cmd0.StdoutProxy, cmd0.StderrProxy),
       Ev.setStdin (Rd.proxy { From := some Stream.hostInput, Handler := some 1 }),
       Ev.setStdout (Wr.proxy { From := some Stream.hostOutput, Handler := some 2 }),
       Ev.setStderr (Wr.proxy { From := some Stream.hostOutput, Handler := some 3 }),
       Ev.run (some 7)] := by
  refine ⟨rfl, ?_⟩
  obtain ⟨rest, hr⟩ := exec_wires_proxies_before_run p0 osExecCommand cmd0 fn0 rfl
  rw [hr]
  simp only [List.take]
  decide

/-- C9: with no callback supplied, no message is ever delivered on any path
(release failure, run failure, or success); `exec` is moreover a total
function of its inputs here, so the controller always returns normally to
its own caller. -/
theorem exec_no_callback_no_delivery {σ : Type} (p : Program)
    (C : ExecCommand σ) (c : σ) :
    sends (Program.exec p C c none) = [] := by
  cases h : p.releaseErr
  · rw [exec_trace_shape p C c none h]
    simp [sends, sendEvs, List.filterMap]
  · simp [Program.exec, h, sends, sendEvs, List.filterMap]

end Tea
